import Mathlib

/-!
Verification development for the financial report generation and correction
subsystem of this repository.

The embedding covers:
* the financial report data model (src/types.ts),
* the verification engine (modelled from the spec, section 4.1, because
  services/verificationService.ts is not part of the provided sources — only
  its caller src/App.tsx and its types are),
* the correction instruction construction of
  src/services/geminiService.ts (fixFinancialReport),
* the Gemini API key handling of src/services/geminiService.ts
  (generateFinancialReport and fixFinancialReport, Gemini provider branch),
* the correction orchestrator handleGenerateReport of src/App.tsx.

Monetary amounts are JavaScript numbers in the source; they are embedded as
rationals, which makes every comparison in the development exact and
decidable.
-/

namespace CCA

/-- Reporting period. The source uses the concrete field names `amount2025`
(current period) and `amount2024` (prior period). -/
inductive Period
  | current
  | prior
deriving DecidableEq, Repr

/-- From src/types.ts: one KPI row. -/
structure KPI where
  name : String
  value2025 : String
  value2024 : String
  changePercentage : ℚ
deriving DecidableEq, Repr

/-- From src/types.ts: one labelled line of a statement section. -/
structure FinancialItem where
  item : String
  amount2025 : ℚ
  amount2024 : ℚ
  noteRef : Option ℕ := none
deriving DecidableEq, Repr

/-- From src/types.ts: a statement total (same shape as a line item minus the
label). -/
structure SingleFinancialValue where
  amount2025 : ℚ
  amount2024 : ℚ
  noteRef : Option ℕ := none
deriving DecidableEq, Repr

/-- From src/types.ts: a numbered note. -/
structure NoteItem where
  id : ℕ
  content : String
deriving DecidableEq, Repr

/-- From src/types.ts. The summary totals consumed by the verification engine
(`netProfit`, the balance sheet totals, `netChangeInCash`) are wrapped in
`Option`: the spec (sections 4.1 and 8) requires the engine to treat a total
that is absent from the raw model JSON as a not-evaluated check rather than an
error, so absence must be representable. Totals not consumed by any
verification check keep the declared required shape. -/
structure IncomeStatement where
  revenue : List FinancialItem
  expenses : List FinancialItem
  grossProfit : SingleFinancialValue
  operatingIncome : SingleFinancialValue
  netProfit : Option SingleFinancialValue
  notes : Option (List NoteItem) := none
deriving DecidableEq, Repr

/-- From src/types.ts. See `IncomeStatement` for why the three totals are
`Option`. -/
structure BalanceSheet where
  currentAssets : List FinancialItem
  nonCurrentAssets : List FinancialItem
  currentLiabilities : List FinancialItem
  nonCurrentLiabilities : List FinancialItem
  equity : List FinancialItem
  totalAssets : Option SingleFinancialValue
  totalLiabilities : Option SingleFinancialValue
  totalEquity : Option SingleFinancialValue
  notes : Option (List NoteItem) := none
deriving DecidableEq, Repr

/-- From src/types.ts. -/
structure CashFlowStatement where
  operatingActivities : List FinancialItem
  investingActivities : List FinancialItem
  financingActivities : List FinancialItem
  netChangeInCash : Option SingleFinancialValue
  notes : Option (List NoteItem) := none
deriving DecidableEq, Repr

/-- From src/types.ts: the unit that is generated, verified and corrected as a
whole. -/
structure ReportData where
  summary : String
  kpis : List KPI
  incomeStatement : IncomeStatement
  balanceSheet : BalanceSheet
  cashFlowStatement : CashFlowStatement
deriving DecidableEq, Repr

/-- From src/types.ts: the overall status literals of a verification result
(the source spells the middle one as the string literal
"Passed with Warnings"). -/
inductive OverallStatus
  | Passed
  | PassedWithWarnings
  | Failed
deriving DecidableEq, Repr

/-- From src/types.ts: one identity evaluated for one period. -/
structure VerificationCheck where
  name : String
  principle : String
  calculation : String
  reported : String
  discrepancy : ℚ
  passed : Bool
  notes : Option String := none
deriving DecidableEq, Repr

/-- From src/types.ts: the certificate produced by one verification call. -/
structure VerificationResult where
  overallStatus : OverallStatus
  checks : List VerificationCheck
  timestamp : String
deriving DecidableEq, Repr

/-- Amount of a total for a period. -/
def SingleFinancialValue.amt (v : SingleFinancialValue) : Period → ℚ
  | Period.current => v.amount2025
  | Period.prior => v.amount2024

/-- Amount of a line item for a period. -/
def FinancialItem.amt (i : FinancialItem) : Period → ℚ
  | Period.current => i.amount2025
  | Period.prior => i.amount2024

/-- Year label of a period, matching the field naming of the data model. -/
def periodLabel : Period → String
  | Period.current => "2025"
  | Period.prior => "2024"

/-- Sum of the amounts of a line item sequence for one period. -/
def sumAmt (p : Period) (items : List FinancialItem) : ℚ :=
  (items.map (fun i => i.amt p)).sum

/-- Modelled from the spec: the fixed discrepancy tolerance of the
verification engine, one currency unit (spec sections 4.1 and glossary; also
displayed by src/components/VerificationCertificate.tsx lines 148-152). -/
def tolerance : ℚ := 1

/-- Rendering of a rational amount into the textual fields of a check. -/
def renderQ (q : ℚ) : String :=
  if q.den = 1 then toString q.num else toString q.num ++ "/" ++ toString q.den

/-- Absolute value of a rational, written out so that every check evaluates
by kernel reduction. -/
def ratAbs (q : ℚ) : ℚ := if q < 0 then -q else q

/-- Modelled from the spec: the Balance Sheet Equation check of the
Verification Engine for one period (spec section 4.1; the implementing file
services/verificationService.ts is not among the provided sources). Computed
value `totalAssets - (totalLiabilities + totalEquity)`, reported value the
discrepancy itself, pass condition `abs discrepancy <= tolerance`; when a
required total is absent the check is recorded as not evaluated, with
`passed = true`, `discrepancy = 0` and an explanatory `notes` field. -/
def balanceCheck (r : ReportData) (p : Period) : VerificationCheck :=
  match r.balanceSheet.totalAssets, r.balanceSheet.totalLiabilities,
      r.balanceSheet.totalEquity with
  | some a, some l, some e =>
    let d := a.amt p - (l.amt p + e.amt p)
    { name := "Balance Sheet Equation (" ++ periodLabel p ++ ")"
      principle := "Assets = Liabilities + Equity"
      calculation := renderQ d
      reported := renderQ d
      discrepancy := d
      passed := decide (ratAbs d ≤ tolerance)
      notes := none }
  | _, _, _ =>
    { name := "Balance Sheet Equation (" ++ periodLabel p ++ ")"
      principle := "Assets = Liabilities + Equity"
      calculation := ""
      reported := ""
      discrepancy := 0
      passed := true
      notes := some "Check not evaluated: a required balance sheet total was not provided." }

/-- Modelled from the spec: the Income Statement Integrity check for one
period (spec section 4.1): computed value `sum revenue - sum expenses`
against the reported `netProfit`. -/
def incomeCheck (r : ReportData) (p : Period) : VerificationCheck :=
  match r.incomeStatement.netProfit with
  | some np =>
    let computed := sumAmt p r.incomeStatement.revenue - sumAmt p r.incomeStatement.expenses
    let d := computed - np.amt p
    { name := "Income Statement Integrity (" ++ periodLabel p ++ ")"
      principle := "Net Profit = Revenue - Expenses"
      calculation := renderQ computed
      reported := renderQ (np.amt p)
      discrepancy := d
      passed := decide (ratAbs d ≤ tolerance)
      notes := none }
  | none =>
    { name := "Income Statement Integrity (" ++ periodLabel p ++ ")"
      principle := "Net Profit = Revenue - Expenses"
      calculation := ""
      reported := ""
      discrepancy := 0
      passed := true
      notes := some "Check not evaluated: net profit was not provided." }

/-- Modelled from the spec: the Cash Flow Integrity check for one period
(spec section 4.1): sum of the three activity categories against the reported
`netChangeInCash`. -/
def cashFlowCheck (r : ReportData) (p : Period) : VerificationCheck :=
  match r.cashFlowStatement.netChangeInCash with
  | some nc =>
    let computed := sumAmt p r.cashFlowStatement.operatingActivities +
      sumAmt p r.cashFlowStatement.investingActivities +
      sumAmt p r.cashFlowStatement.financingActivities
    let d := computed - nc.amt p
    { name := "Cash Flow Integrity (" ++ periodLabel p ++ ")"
      principle := "Net Change In Cash = Operating + Investing + Financing"
      calculation := renderQ computed
      reported := renderQ (nc.amt p)
      discrepancy := d
      passed := decide (ratAbs d ≤ tolerance)
      notes := none }
  | none =>
    { name := "Cash Flow Integrity (" ++ periodLabel p ++ ")"
      principle := "Net Change In Cash = Operating + Investing + Financing"
      calculation := ""
      reported := ""
      discrepancy := 0
      passed := true
      notes := some "Check not evaluated: net change in cash was not provided." }

/-- Modelled from the spec: each identity is checked independently for the
current and the prior period (spec section 4.1). -/
def reportChecks (r : ReportData) : List VerificationCheck :=
  [balanceCheck r Period.current, balanceCheck r Period.prior,
   incomeCheck r Period.current, incomeCheck r Period.prior,
   cashFlowCheck r Period.current, cashFlowCheck r Period.prior]

/-- Modelled from the spec: overall status derivation in priority order (spec
section 4.1): any check with `passed = false` gives Failed; otherwise at least
one not-evaluated check gives PassedWithWarnings; otherwise Passed. -/
def deriveOverallStatus (checks : List VerificationCheck) : OverallStatus :=
  if checks.any (fun c => !c.passed) then OverallStatus.Failed
  else if checks.any (fun c => c.notes.isSome) then OverallStatus.PassedWithWarnings
  else OverallStatus.Passed

/-- Modelled from the spec: the Verification Engine, a pure function from a
report to a certificate (spec sections 4.1 and 6; `verifyReportData` of
services/verificationService.ts, imported by src/App.tsx line 4 but not among
the provided sources). The caller supplies the timestamp so that the function
stays pure. -/
def verifyReportData (now : String) (r : ReportData) : VerificationResult :=
  { overallStatus := deriveOverallStatus (reportChecks r)
    checks := reportChecks r
    timestamp := now }

/-- From src/services/geminiService.ts lines 393-416: the correction prompt
handed to the fix entry point is one fixed instruction template into which
exactly two computed values are interpolated: the serialized previous report
(JSON.stringify of `previousReport`) and the serialized list of failed checks
(JSON.stringify of `verificationErrors.checks.filter(c => !c.passed)`).
This definition embeds that interpolated data; the surrounding template is
constant text containing no computed content. -/
def correctionPromptData (previousReport : ReportData)
    (verificationErrors : VerificationResult) :
    ReportData × List VerificationCheck :=
  (previousReport, verificationErrors.checks.filter (fun c => !c.passed))

/-- All numeric values carried by a list of line items (amounts and note
references), as serialized into the correction prompt. -/
def itemListNumbers (l : List FinancialItem) : List ℚ :=
  l.map (fun i => i.amount2025) ++ l.map (fun i => i.amount2024) ++
    (l.filterMap (fun i => i.noteRef)).map (fun n => (n : ℚ))

/-- All numeric values carried by a statement total. -/
def singleValueNumbers (v : SingleFinancialValue) : List ℚ :=
  [v.amount2025, v.amount2024] ++
    (match v.noteRef with
     | none => []
     | some n => [(n : ℚ)])

/-- All numeric values carried by an optional statement total. -/
def optionalValueNumbers : Option SingleFinancialValue → List ℚ
  | none => []
  | some v => singleValueNumbers v

/-- All numeric values carried by an optional note list. -/
def noteListNumbers (ns : Option (List NoteItem)) : List ℚ :=
  (ns.getD []).map (fun n => (n.id : ℚ))

/-- Every numeric value that JSON.stringify of a report serializes into the
correction prompt. -/
def reportNumbers (r : ReportData) : List ℚ :=
  r.kpis.map (fun k => k.changePercentage) ++
  itemListNumbers r.incomeStatement.revenue ++
  itemListNumbers r.incomeStatement.expenses ++
  singleValueNumbers r.incomeStatement.grossProfit ++
  singleValueNumbers r.incomeStatement.operatingIncome ++
  optionalValueNumbers r.incomeStatement.netProfit ++
  noteListNumbers r.incomeStatement.notes ++
  itemListNumbers r.balanceSheet.currentAssets ++
  itemListNumbers r.balanceSheet.nonCurrentAssets ++
  itemListNumbers r.balanceSheet.currentLiabilities ++
  itemListNumbers r.balanceSheet.nonCurrentLiabilities ++
  itemListNumbers r.balanceSheet.equity ++
  optionalValueNumbers r.balanceSheet.totalAssets ++
  optionalValueNumbers r.balanceSheet.totalLiabilities ++
  optionalValueNumbers r.balanceSheet.totalEquity ++
  noteListNumbers r.balanceSheet.notes ++
  itemListNumbers r.cashFlowStatement.operatingActivities ++
  itemListNumbers r.cashFlowStatement.investingActivities ++
  itemListNumbers r.cashFlowStatement.financingActivities ++
  optionalValueNumbers r.cashFlowStatement.netChangeInCash ++
  noteListNumbers r.cashFlowStatement.notes

/-- Modelled from the spec: section 4.2 prescribes that a Balance Sheet
correction directive recompute `totalAssets` and `totalLiabilities` as sums
of their constituent categories, assign the residual to a single equity plug
line and recompute `totalEquity` as the sum of the corrected equity sequence,
which makes the recomputed `totalEquity` equal
`newAssets - newLiabilities`. This definition states what claim C7 asserts
the emitted instructions contain; it is compared against the instruction
construction actually found in src/services/geminiService.ts. -/
def specRecomputedTotalEquity (r : ReportData) (p : Period) : ℚ :=
  sumAmt p (r.balanceSheet.currentAssets ++ r.balanceSheet.nonCurrentAssets) -
    sumAmt p (r.balanceSheet.currentLiabilities ++ r.balanceSheet.nonCurrentLiabilities)

/-- From src/services/geminiService.ts / src/App.tsx: the configured API
provider. -/
inductive ApiProvider
  | gemini
  | openrouter
deriving DecidableEq, Repr

/-- From src/services/geminiService.ts lines 9-14: the generation
configuration. -/
structure ApiConfig where
  provider : ApiProvider
  apiKey : String
  model : String
  voiceModel : Option String := none
deriving DecidableEq, Repr

/-- From src/services/geminiService.ts lines 356 and 451: the effective Gemini
key is `config.apiKey || process.env.API_KEY`. JavaScript falsiness of the
empty string is modelled explicitly; an unset environment variable is
`none`. -/
def effectiveGeminiKey (configKey : String) (envKey : Option String) : String :=
  if configKey = "" then envKey.getD "" else configKey

/-- From src/services/geminiService.ts line 358. -/
def geminiMissingKeyMsgGenerate : String :=
  "Gemini API key is missing. Please provide one in the config or set the environment variable."

/-- From src/services/geminiService.ts line 452. -/
def geminiMissingKeyMsgFix : String := "Gemini API key is missing."

/-- From src/services/geminiService.ts line 383. -/
def geminiGenerateFailureMsg : String :=
  "The AI model failed to process the financial data. Please check if the uploaded documents are clear and valid financial reports."

/-- From src/services/geminiService.ts line 468. -/
def geminiFixFailureMsg : String :=
  "The AI model failed to correct the financial data."

/-- From src/services/geminiService.ts lines 355-385: the Gemini provider
branch of the generate entry point. `modelResponse` is the outcome of the
external model call (parsed report, or a failure covering network, auth and
malformed output, all of which the surrounding try/catch replaces with one
fixed message). The boolean records whether the external model was invoked
at all. -/
def generateFinancialReportGemini (config : ApiConfig) (envKey : Option String)
    (modelResponse : Except String ReportData) :
    Except String ReportData × Bool :=
  if effectiveGeminiKey config.apiKey envKey = "" then
    (Except.error geminiMissingKeyMsgGenerate, false)
  else
    match modelResponse with
    | Except.ok r => (Except.ok r, true)
    | Except.error _ => (Except.error geminiGenerateFailureMsg, true)

/-- From src/services/geminiService.ts lines 450-470: the Gemini provider
branch of the fix entry point; same shape as
`generateFinancialReportGemini`. -/
def fixFinancialReportGemini (config : ApiConfig) (envKey : Option String)
    (modelResponse : Except String ReportData) :
    Except String ReportData × Bool :=
  if effectiveGeminiKey config.apiKey envKey = "" then
    (Except.error geminiMissingKeyMsgFix, false)
  else
    match modelResponse with
    | Except.ok r => (Except.ok r, true)
    | Except.error _ => (Except.error geminiFixFailureMsg, true)

/-- Outcome of one orchestrator run (the try/catch of handleGenerateReport,
src/App.tsx lines 48-103).

* `success`: lines 86-88, the working report and certificate are published.
* `cancelled`: lines 56-60 and 77-81, the run stops with the surfaced error
  "Report generation was cancelled by the user.".
* `generationError`: a generator call threw; the throw escapes the loop to the
  catch block (lines 93-100), which surfaces the thrown message.
* `budgetExceeded`: the throw at line 68, likewise surfaced by the catch.
* `inconsistentStop`: lines 89-91, the loop ended with a Failed certificate
  and no cancellation (dead code under the loop condition, kept for
  fidelity).
* `silentStop`: the loop ended with a Failed certificate while cancelled;
  the code sets no error and publishes nothing. -/
inductive RunOutcome
  | success (report : ReportData) (verification : VerificationResult)
  | cancelled
  | generationError (message : String)
  | budgetExceeded (message : String)
  | inconsistentStop
  | silentStop
deriving DecidableEq, Repr

/-- Observable trace of one orchestrator run: its outcome, the successive
values handed to setRetryAttempt inside the try block (lines 50 and 70), and
the number of generator invocations (generateFinancialReport and
fixFinancialReport calls) started. -/
structure RunTrace where
  outcome : RunOutcome
  exposed : List ℕ
  callsMade : ℕ
deriving DecidableEq, Repr

/-- From src/App.tsx line 68: the message of the budget throw. -/
def budgetMessage : String :=
  "Failed to correct the report after 5 attempts. Please try again or use different source documents."

/-- From src/App.tsx lines 65-84: the correction loop of
handleGenerateReport.

The loop body increments `attempt`, throws the budget error when the new
value exceeds 5, exposes the new value, awaits the fix call, checks the
cancellation flag, and re-verifies. The structural parameter `rem` encodes
the budget guard: `rem = 5 - attempt`, so the code condition
`attempt + 1 > 5` is exactly `rem = 0`.

`calls k` is the result of the k-th generator invocation of the run (the
initial generate call is k = 1, the fix call made at attempt k is call k).
`flag k` is the value of isGenerationCancelledRef.current observable once k
generator calls have completed: the flag is mutated only by click handlers,
which run only while handleGenerateReport is suspended, and its only
suspension points are the two awaited generator calls — so the flag is
constant between consecutive calls, and in particular the while condition at
line 65 and the preceding post-await check read the same value. -/
def correctionLoopGo (vf : ReportData → VerificationResult)
    (calls : ℕ → Except String ReportData) (flag : ℕ → Bool) :
    (rem attempt : ℕ) → ReportData → VerificationResult → RunTrace
  | rem, attempt, currentReport, currentVerification =>
    if flag attempt = false ∧ currentVerification.overallStatus = OverallStatus.Failed then
      match rem with
      | 0 => { outcome := RunOutcome.budgetExceeded budgetMessage, exposed := [], callsMade := 0 }
      | rem' + 1 =>
        match calls (attempt + 1) with
        | Except.error e =>
          { outcome := RunOutcome.generationError e, exposed := [attempt + 1], callsMade := 1 }
        | Except.ok nextReport =>
          if flag (attempt + 1) then
            { outcome := RunOutcome.cancelled, exposed := [attempt + 1], callsMade := 1 }
          else
            let t := correctionLoopGo vf calls flag rem' (attempt + 1) nextReport (vf nextReport)
            { outcome := t.outcome
              exposed := (attempt + 1) :: t.exposed
              callsMade := t.callsMade + 1 }
    else if currentVerification.overallStatus ≠ OverallStatus.Failed then
      { outcome := RunOutcome.success currentReport currentVerification, exposed := [], callsMade := 0 }
    else if flag attempt = false then
      { outcome := RunOutcome.inconsistentStop, exposed := [], callsMade := 0 }
    else
      { outcome := RunOutcome.silentStop, exposed := [], callsMade := 0 }

/-- From src/App.tsx lines 48-91: the try block of handleGenerateReport.
Attempt counter starts at 1 and is exposed, the initial generate call is
awaited, the cancellation flag is checked, the report is verified, and the
correction loop runs with 4 corrections remaining (attempt 1 of the budget
of 5 is the initial generation). The orchestrator is parameterized by the
verification function it imports, by the outcomes of the successive external
generator calls, and by the observable cancellation flag (see
`correctionLoopGo`). -/
def runWithCorrection (vf : ReportData → VerificationResult)
    (calls : ℕ → Except String ReportData) (flag : ℕ → Bool) : RunTrace :=
  match calls 1 with
  | Except.error e =>
    { outcome := RunOutcome.generationError e, exposed := [1], callsMade := 1 }
  | Except.ok firstReport =>
    if flag 1 then { outcome := RunOutcome.cancelled, exposed := [1], callsMade := 1 }
    else
      let t := correctionLoopGo vf calls flag 4 1 firstReport (vf firstReport)
      { outcome := t.outcome, exposed := 1 :: t.exposed, callsMade := t.callsMade + 1 }

/-- A small fully consistent report: every identity holds exactly for both
periods and every total is present. -/
def exampleBalancedReport : ReportData :=
  { summary := "Balanced example report"
    kpis := []
    incomeStatement :=
      { revenue := [{ item := "Sales", amount2025 := 500, amount2024 := 450 }]
        expenses := [{ item := "Operating costs", amount2025 := 400, amount2024 := 360 }]
        grossProfit := { amount2025 := 100, amount2024 := 90 }
        operatingIncome := { amount2025 := 100, amount2024 := 90 }
        netProfit := some { amount2025 := 100, amount2024 := 90 } }
    balanceSheet :=
      { currentAssets := [{ item := "Cash", amount2025 := 950, amount2024 := 900 }]
        nonCurrentAssets := []
        currentLiabilities := [{ item := "Payables", amount2025 := 700, amount2024 := 680 }]
        nonCurrentLiabilities := []
        equity := [{ item := "Retained Earnings", amount2025 := 250, amount2024 := 220 }]
        totalAssets := some { amount2025 := 950, amount2024 := 900 }
        totalLiabilities := some { amount2025 := 700, amount2024 := 680 }
        totalEquity := some { amount2025 := 250, amount2024 := 220 } }
    cashFlowStatement :=
      { operatingActivities := [{ item := "Net cash from operations", amount2025 := 5, amount2024 := 4 }]
        investingActivities := []
        financingActivities := []
        netChangeInCash := some { amount2025 := 5, amount2024 := 4 } } }

/-- The example of spec section 8: `totalAssets.current = 1000`,
`totalLiabilities.current = 700`, `totalEquity.current = 250`, so the Balance
Sheet Equation check for the current period fails with discrepancy 50; every
other check passes exactly. -/
def exampleUnbalancedReport : ReportData :=
  { summary := "Unbalanced example report"
    kpis := []
    incomeStatement :=
      { revenue := [{ item := "Sales", amount2025 := 500, amount2024 := 450 }]
        expenses := [{ item := "Operating costs", amount2025 := 400, amount2024 := 360 }]
        grossProfit := { amount2025 := 100, amount2024 := 90 }
        operatingIncome := { amount2025 := 100, amount2024 := 90 }
        netProfit := some { amount2025 := 100, amount2024 := 90 } }
    balanceSheet :=
      { currentAssets := [{ item := "Cash", amount2025 := 1000, amount2024 := 950 }]
        nonCurrentAssets := []
        currentLiabilities := [{ item := "Payables", amount2025 := 700, amount2024 := 700 }]
        nonCurrentLiabilities := []
        equity := [{ item := "Retained Earnings", amount2025 := 250, amount2024 := 250 }]
        totalAssets := some { amount2025 := 1000, amount2024 := 950 }
        totalLiabilities := some { amount2025 := 700, amount2024 := 700 }
        totalEquity := some { amount2025 := 250, amount2024 := 250 } }
    cashFlowStatement :=
      { operatingActivities := [{ item := "Net cash from operations", amount2025 := 5, amount2024 := 4 }]
        investingActivities := []
        financingActivities := []
        netChangeInCash := some { amount2025 := 5, amount2024 := 4 } } }

/-- The single failed check that verification of `exampleUnbalancedReport`
produces. -/
def exampleFailedBalanceCheck : VerificationCheck :=
  { name := "Balance Sheet Equation (2025)"
    principle := "Assets = Liabilities + Equity"
    calculation := renderQ 50
    reported := renderQ 50
    discrepancy := 50
    passed := false
    notes := none }

/-- The balanced example with `totalAssets` absent, as in the testable
property of spec section 8 about missing totals. -/
def exampleMissingTotalAssets : ReportData :=
  { exampleBalancedReport with
    balanceSheet := { exampleBalancedReport.balanceSheet with totalAssets := none } }

/-- The balanced example with a netProfit discrepancy of exactly the
tolerance (computed 100 against reported 99) in the current period. -/
def exampleBoundaryReport : ReportData :=
  { exampleBalancedReport with
    incomeStatement :=
      { exampleBalancedReport.incomeStatement with
        netProfit := some { amount2025 := 99, amount2024 := 90 } } }

/-- The balanced example with a netProfit discrepancy of exactly
tolerance + 0.01 (computed 100 against reported 98.99) in the current
period. -/
def exampleOverBoundaryReport : ReportData :=
  { exampleBalancedReport with
    incomeStatement :=
      { exampleBalancedReport.incomeStatement with
        netProfit := some { amount2025 := 9899 / 100, amount2024 := 90 } } }

/-- The verification function with a fixed timestamp, used to instantiate the
orchestrator in concrete runs. -/
def exampleVerify : ReportData → VerificationResult :=
  verifyReportData "2025-06-30T00:00:00Z"

/-- Generator oracle whose every call returns the unbalanced report. -/
def callsAlwaysUnbalanced : ℕ → Except String ReportData :=
  fun _ => Except.ok exampleUnbalancedReport

/-- The report returned by the k-th generator call in the pass-on-third
scenario. -/
def repPassOnThird : ℕ → ReportData :=
  fun k => if k = 3 then exampleBalancedReport else exampleUnbalancedReport

/-- Generator oracle that fixes the imbalance on its 3rd call. -/
def callsPassOnThird : ℕ → Except String ReportData :=
  fun k => Except.ok (repPassOnThird k)

/-- Generator oracle whose 2nd call (the first fix call) throws. -/
def callsFailSecond : ℕ → Except String ReportData :=
  fun k => if k = 2 then Except.error geminiGenerateFailureMsg
    else Except.ok exampleUnbalancedReport

/-- Cancellation flag that becomes observable once the 2nd generator call has
completed: the user clicked Cancel after the first verification had already
returned, so the click handler ran while the orchestrator was suspended in
the 2nd generator call. -/
def cancelAfterFirstVerification : ℕ → Bool :=
  fun k => decide (2 ≤ k)

/-- Cancellation flag that never fires. -/
def neverCancelled : ℕ → Bool := fun _ => false

/-- A Gemini configuration with an empty configured key. -/
def exampleGeminiConfigNoKey : ApiConfig :=
  { provider := ApiProvider.gemini
    apiKey := ""
    model := "gemini-2.5-flash" }

theorem ratAbs_eq_abs (q : ℚ) : ratAbs q = |q| := by
  unfold ratAbs
  rcases lt_or_le q 0 with h | h
  · simp [h, abs_of_neg h]
  · simp [not_lt.mpr h, abs_of_nonneg h]

theorem correctionLoopGo_pass (vf : ReportData → VerificationResult)
    (calls : ℕ → Except String ReportData) (flag : ℕ → Bool) (rem a : ℕ)
    (r : ReportData) (v : VerificationResult)
    (hv : v.overallStatus ≠ OverallStatus.Failed) :
    correctionLoopGo vf calls flag rem a r v =
      { outcome := RunOutcome.success r v, exposed := [], callsMade := 0 } := by
  rw [correctionLoopGo.eq_def]
  simp [hv]

theorem correctionLoopGo_budget (vf : ReportData → VerificationResult)
    (calls : ℕ → Except String ReportData) (flag : ℕ → Bool) (a : ℕ)
    (r : ReportData) (v : VerificationResult)
    (hf : flag a = false) (hv : v.overallStatus = OverallStatus.Failed) :
    correctionLoopGo vf calls flag 0 a r v =
      { outcome := RunOutcome.budgetExceeded budgetMessage, exposed := [], callsMade := 0 } := by
  rw [correctionLoopGo.eq_def]
  simp [hf, hv]

theorem correctionLoopGo_error (vf : ReportData → VerificationResult)
    (calls : ℕ → Except String ReportData) (flag : ℕ → Bool) (rem a : ℕ)
    (r : ReportData) (v : VerificationResult) (e : String)
    (hf : flag a = false) (hv : v.overallStatus = OverallStatus.Failed)
    (hc : calls (a + 1) = Except.error e) :
    correctionLoopGo vf calls flag (rem + 1) a r v =
      { outcome := RunOutcome.generationError e, exposed := [a + 1], callsMade := 1 } := by
  rw [correctionLoopGo.eq_def]
  simp [hf, hv, hc]

theorem correctionLoopGo_cancel (vf : ReportData → VerificationResult)
    (calls : ℕ → Except String ReportData) (flag : ℕ → Bool) (rem a : ℕ)
    (r r2 : ReportData) (v : VerificationResult)
    (hf : flag a = false) (hv : v.overallStatus = OverallStatus.Failed)
    (hc : calls (a + 1) = Except.ok r2) (hf2 : flag (a + 1) = true) :
    correctionLoopGo vf calls flag (rem + 1) a r v =
      { outcome := RunOutcome.cancelled, exposed := [a + 1], callsMade := 1 } := by
  rw [correctionLoopGo.eq_def]
  simp [hf, hv, hc, hf2]

theorem correctionLoopGo_step (vf : ReportData → VerificationResult)
    (calls : ℕ → Except String ReportData) (flag : ℕ → Bool) (rem a : ℕ)
    (r r2 : ReportData) (v : VerificationResult)
    (hf : flag a = false) (hv : v.overallStatus = OverallStatus.Failed)
    (hc : calls (a + 1) = Except.ok r2) (hf2 : flag (a + 1) = false) :
    correctionLoopGo vf calls flag (rem + 1) a r v =
      { outcome := (correctionLoopGo vf calls flag rem (a + 1) r2 (vf r2)).outcome
        exposed := (a + 1) :: (correctionLoopGo vf calls flag rem (a + 1) r2 (vf r2)).exposed
        callsMade := (correctionLoopGo vf calls flag rem (a + 1) r2 (vf r2)).callsMade + 1 } := by
  rw [correctionLoopGo.eq_def]
  simp [hf, hv, hc, hf2]

theorem runWithCorrection_error (vf : ReportData → VerificationResult)
    (calls : ℕ → Except String ReportData) (flag : ℕ → Bool) (e : String)
    (hc : calls 1 = Except.error e) :
    runWithCorrection vf calls flag =
      { outcome := RunOutcome.generationError e, exposed := [1], callsMade := 1 } := by
  rw [runWithCorrection]
  simp [hc]

theorem runWithCorrection_cancel (vf : ReportData → VerificationResult)
    (calls : ℕ → Except String ReportData) (flag : ℕ → Bool) (r1 : ReportData)
    (hc : calls 1 = Except.ok r1) (hf : flag 1 = true) :
    runWithCorrection vf calls flag =
      { outcome := RunOutcome.cancelled, exposed := [1], callsMade := 1 } := by
  rw [runWithCorrection]
  simp [hc, hf]

theorem runWithCorrection_enter (vf : ReportData → VerificationResult)
    (calls : ℕ → Except String ReportData) (flag : ℕ → Bool) (r1 : ReportData)
    (hc : calls 1 = Except.ok r1) (hf : flag 1 = false) :
    runWithCorrection vf calls flag =
      { outcome := (correctionLoopGo vf calls flag 4 1 r1 (vf r1)).outcome
        exposed := 1 :: (correctionLoopGo vf calls flag 4 1 r1 (vf r1)).exposed
        callsMade := (correctionLoopGo vf calls flag 4 1 r1 (vf r1)).callsMade + 1 } := by
  rw [runWithCorrection]
  simp [hc, hf]

theorem correctionLoopGo_steps (vf : ReportData → VerificationResult)
    (calls : ℕ → Except String ReportData) (flag : ℕ → Bool)
    (rep : ℕ → ReportData) (hflag : ∀ k, flag k = false) :
    ∀ (d a rem : ℕ), d ≤ rem →
      (∀ j, a ≤ j → j < a + d → (vf (rep j)).overallStatus = OverallStatus.Failed) →
      (∀ j, a ≤ j → j < a + d → calls (j + 1) = Except.ok (rep (j + 1))) →
      correctionLoopGo vf calls flag rem a (rep a) (vf (rep a)) =
        { outcome := (correctionLoopGo vf calls flag (rem - d) (a + d) (rep (a + d)) (vf (rep (a + d)))).outcome
          exposed := List.range' (a + 1) d ++
            (correctionLoopGo vf calls flag (rem - d) (a + d) (rep (a + d)) (vf (rep (a + d)))).exposed
          callsMade := (correctionLoopGo vf calls flag (rem - d) (a + d) (rep (a + d)) (vf (rep (a + d)))).callsMade + d } := by
  intro d
  induction d with
  | zero => intro a rem _ _ _; simp
  | succ d ih =>
    intro a rem hdr hfail hok
    obtain ⟨rem', rfl⟩ : ∃ rem', rem = rem' + 1 := by
      cases rem with
      | zero => omega
      | succ m => exact ⟨m, rfl⟩
    rw [correctionLoopGo_step vf calls flag rem' a (rep a) (rep (a + 1)) (vf (rep a))
      (hflag a) (hfail a le_rfl (by omega)) (hok a le_rfl (by omega)) (hflag (a + 1))]
    rw [ih (a + 1) rem' (by omega)
      (fun j hj1 hj2 => hfail j (by omega) (by omega))
      (fun j hj1 hj2 => hok j (by omega) (by omega))]
    have harith1 : a + 1 + d = a + (d + 1) := by omega
    have harith2 : rem' - d = rem' + 1 - (d + 1) := by omega
    rw [harith1, harith2]
    simp [List.range'_succ]
    omega
theorem correctionLoopGo_exposed_shape (vf : ReportData → VerificationResult)
    (calls : ℕ → Except String ReportData) (flag : ℕ → Bool) :
    ∀ (rem a : ℕ) (r : ReportData) (v : VerificationResult),
      ∃ n, n ≤ rem ∧ (correctionLoopGo vf calls flag rem a r v).exposed = List.range' (a + 1) n := by
  intro rem
  induction rem with
  | zero =>
    intro a r v
    refine ⟨0, le_rfl, ?_⟩
    by_cases hcond : flag a = false ∧ v.overallStatus = OverallStatus.Failed
    · simp [correctionLoopGo.eq_def, hcond.1, hcond.2]
    · by_cases hv : v.overallStatus = OverallStatus.Failed
      · have hf : flag a = true := by
          cases hfa : flag a with
          | false => exact absurd ⟨hfa, hv⟩ hcond
          | true => rfl
        simp [correctionLoopGo.eq_def, hf, hv]
      · simp [correctionLoopGo.eq_def, hv]
  | succ rem' ih =>
    intro a r v
    by_cases hcond : flag a = false ∧ v.overallStatus = OverallStatus.Failed
    · cases hc : calls (a + 1) with
      | error e =>
        refine ⟨1, by omega, ?_⟩
        rw [correctionLoopGo_error vf calls flag rem' a r v e hcond.1 hcond.2 hc]
        simp [List.range'_one]
      | ok r2 =>
        by_cases hf2 : flag (a + 1)
        · refine ⟨1, by omega, ?_⟩
          rw [correctionLoopGo_cancel vf calls flag rem' a r r2 v hcond.1 hcond.2 hc hf2]
          simp [List.range'_one]
        · obtain ⟨n, hn, hsh⟩ := ih (a + 1) r2 (vf r2)
          refine ⟨n + 1, by omega, ?_⟩
          rw [correctionLoopGo_step vf calls flag rem' a r r2 v hcond.1 hcond.2 hc
            (by simpa using hf2)]
          simp [hsh, List.range'_succ]
    · by_cases hv : v.overallStatus = OverallStatus.Failed
      · have hf : flag a = true := by
          cases hfa : flag a with
          | false => exact absurd ⟨hfa, hv⟩ hcond
          | true => rfl
        exact ⟨0, by omega, by simp [correctionLoopGo.eq_def, hf, hv]⟩
      · exact ⟨0, by omega, by simp [correctionLoopGo.eq_def, hv]⟩
/-- C1: when every verification of a generated report yields overallStatus
Failed and cancellation is never requested, the orchestrator makes exactly 5
generator calls (1 initial generate plus 4 fix calls) and then fails with the
budget-exceeded error, whose message surfaces the attempt count 5. -/
theorem correction_loop_exhausts_budget_after_five_calls
    (vf : ReportData → VerificationResult) (calls : ℕ → Except String ReportData)
    (flag : ℕ → Bool) (rep : ℕ → ReportData)
    (hnc : ∀ k, flag k = false)
    (hok : ∀ k, 1 ≤ k → k ≤ 5 → calls k = Except.ok (rep k))
    (hfail : ∀ k, 1 ≤ k → k ≤ 5 → (vf (rep k)).overallStatus = OverallStatus.Failed) :
    (runWithCorrection vf calls flag).callsMade = 5 ∧
    (runWithCorrection vf calls flag).outcome = RunOutcome.budgetExceeded budgetMessage ∧
    budgetMessage = "Failed to correct the report after " ++ "5" ++
      " attempts. Please try again or use different source documents." := by
  have hrun := runWithCorrection_enter vf calls flag (rep 1) (hok 1 (by omega) (by omega)) (hnc 1)
  have hsteps := correctionLoopGo_steps vf calls flag rep hnc 4 1 4 le_rfl
    (fun j hj1 hj2 => hfail j hj1 (by omega))
    (fun j hj1 hj2 => hok (j + 1) (by omega) (by omega))
  have hbudget := correctionLoopGo_budget vf calls flag 5 (rep 5) (vf (rep 5)) (hnc 5)
    (hfail 5 (by omega) (by omega))
  norm_num at hsteps
  rw [hbudget] at hsteps
  rw [hsteps] at hrun
  rw [hrun]
  refine ⟨rfl, rfl, rfl⟩
/-- C2: when the k-th generated report is the first whose verification is not
Failed (k at most 5) and cancellation is never requested, the orchestrator
stops after exactly k generator calls and succeeds with exactly that report
and its certificate; in particular a generator that produces a passing report
on its 3rd call is called exactly 3 times. -/
theorem correction_loop_stops_on_first_nonfailed_verification
    (vf : ReportData → VerificationResult) (calls : ℕ → Except String ReportData)
    (flag : ℕ → Bool) (rep : ℕ → ReportData) (k : ℕ)
    (hnc : ∀ j, flag j = false) (hk1 : 1 ≤ k) (hk5 : k ≤ 5)
    (hok : ∀ j, 1 ≤ j → j ≤ k → calls j = Except.ok (rep j))
    (hfail : ∀ j, 1 ≤ j → j < k → (vf (rep j)).overallStatus = OverallStatus.Failed)
    (hpass : (vf (rep k)).overallStatus ≠ OverallStatus.Failed) :
    (runWithCorrection vf calls flag).callsMade = k ∧
    (runWithCorrection vf calls flag).outcome = RunOutcome.success (rep k) (vf (rep k)) := by
  have hrun := runWithCorrection_enter vf calls flag (rep 1) (hok 1 (by omega) (by omega)) (hnc 1)
  have hsteps := correctionLoopGo_steps vf calls flag rep hnc (k - 1) 1 4 (by omega)
    (fun j hj1 hj2 => hfail j hj1 (by omega))
    (fun j hj1 hj2 => hok (j + 1) (by omega) (by omega))
  have hk : 1 + (k - 1) = k := by omega
  rw [hk] at hsteps
  have hpassEq := correctionLoopGo_pass vf calls flag (4 - (k - 1)) k (rep k) (vf (rep k)) hpass
  rw [hpassEq] at hsteps
  rw [hsteps] at hrun
  rw [hrun]
  constructor
  · simp; omega
  · rfl

/-- C4: when the j-th generator call throws (all earlier calls succeeded with
reports whose verification is Failed) and cancellation is never requested,
the orchestrator makes no further generator calls — the run stops at exactly
j calls — and the thrown message propagates unchanged as the generation
error outcome, never as success or a budget failure. -/
theorem generation_error_propagates_and_stops_run
    (vf : ReportData → VerificationResult) (calls : ℕ → Except String ReportData)
    (flag : ℕ → Bool) (rep : ℕ → ReportData) (k : ℕ) (e : String)
    (hnc : ∀ j, flag j = false) (hk1 : 1 ≤ k) (hk5 : k ≤ 5)
    (hok : ∀ j, 1 ≤ j → j < k → calls j = Except.ok (rep j))
    (hfail : ∀ j, 1 ≤ j → j < k → (vf (rep j)).overallStatus = OverallStatus.Failed)
    (herr : calls k = Except.error e) :
    (runWithCorrection vf calls flag).callsMade = k ∧
    (runWithCorrection vf calls flag).outcome = RunOutcome.generationError e := by
  rcases Nat.lt_or_ge k 2 with hk2 | hk2
  · have hk1' : k = 1 := by omega
    subst hk1'
    rw [runWithCorrection_error vf calls flag e herr]
    exact ⟨rfl, rfl⟩
  · have hrun := runWithCorrection_enter vf calls flag (rep 1) (hok 1 (by omega) (by omega)) (hnc 1)
    have hsteps := correctionLoopGo_steps vf calls flag rep hnc (k - 2) 1 4 (by omega)
      (fun j hj1 hj2 => hfail j hj1 (by omega))
      (fun j hj1 hj2 => hok (j + 1) (by omega) (by omega))
    have hk : 1 + (k - 2) = k - 1 := by omega
    rw [hk] at hsteps
    obtain ⟨m, hm⟩ : ∃ m, 4 - (k - 2) = m + 1 := ⟨4 - (k - 2) - 1, by omega⟩
    rw [hm] at hsteps
    have hkk : (k - 1) + 1 = k := by omega
    have herrEq := correctionLoopGo_error vf calls flag m (k - 1) (rep (k - 1))
      (vf (rep (k - 1))) e (hnc (k - 1)) (hfail (k - 1) (by omega) (by omega))
      (by rw [hkk]; exact herr)
    rw [herrEq] at hsteps
    rw [hsteps] at hrun
    rw [hrun]
    constructor
    · simp; omega
    · rfl
/-- C9: in every orchestrator run, whatever the generator, verification and
cancellation behaviour, the exposed retry-attempt values are the consecutive
integers starting at 1, at most 5 of them: the counter starts at 1, increases
by exactly 1 per correction iteration, and every exposed value lies between 1
and 5 — the budget error is raised before a value above 5 could be
exposed. -/
theorem retry_attempt_counter_invariant
    (vf : ReportData → VerificationResult) (calls : ℕ → Except String ReportData)
    (flag : ℕ → Bool) :
    ∃ m, 1 ≤ m ∧ m ≤ 5 ∧
      (runWithCorrection vf calls flag).exposed = List.range' 1 m ∧
      (runWithCorrection vf calls flag).exposed.head? = some 1 ∧
      ∀ x ∈ (runWithCorrection vf calls flag).exposed, 1 ≤ x ∧ x ≤ 5 := by
  cases hc : calls 1 with
  | error e =>
    rw [runWithCorrection_error vf calls flag e hc]
    exact ⟨1, by omega, by omega, by simp [List.range'_one], rfl, by simp⟩
  | ok r1 =>
    by_cases hf : flag 1
    · rw [runWithCorrection_cancel vf calls flag r1 hc hf]
      exact ⟨1, by omega, by omega, by simp [List.range'_one], rfl, by simp⟩
    · have hf' : flag 1 = false := by simpa using hf
      rw [runWithCorrection_enter vf calls flag r1 hc hf']
      obtain ⟨n, hn, hsh⟩ := correctionLoopGo_exposed_shape vf calls flag 4 1 r1 (vf r1)
      refine ⟨n + 1, by omega, by omega, ?_, ?_, ?_⟩
      · simp only [RunTrace.exposed] at hsh ⊢
        rw [hsh, List.range'_succ]
      · rfl
      · intro x hx
        simp only [RunTrace.exposed, hsh, List.mem_cons] at hx
        rcases hx with rfl | hx
        · omega
        · rw [List.mem_range'_1] at hx
          omega

/-- C3 amended: if cancellation is signaled after the 1st verification has
returned Failed, the flag — mutated only while the orchestrator is suspended
in a generator call — becomes observable only once the 2nd generator call has
completed, so the 2nd call does occur; the run then stops as the surfaced
cancellation error after exactly 2 calls, with no 3rd call, no success and no
budget failure. -/
theorem cancellation_after_first_verification_aborts_after_second_call
    (vf : ReportData → VerificationResult) (calls : ℕ → Except String ReportData)
    (flag : ℕ → Bool) (r1 r2 : ReportData)
    (h1 : calls 1 = Except.ok r1) (hf1 : flag 1 = false)
    (hv1 : (vf r1).overallStatus = OverallStatus.Failed)
    (h2 : calls 2 = Except.ok r2) (hf2 : flag 2 = true) :
    runWithCorrection vf calls flag =
      { outcome := RunOutcome.cancelled, exposed := [1, 2], callsMade := 2 } := by
  rw [runWithCorrection_enter vf calls flag r1 h1 hf1]
  rw [correctionLoopGo_cancel vf calls flag 3 1 r1 r2 (vf r1) hf1 hv1 h2 hf2]

/-- C3 counterexample: a concrete run in which cancellation is signaled after
the 1st verification has returned Failed (the cancellation flag is false at
the checkpoint after call 1 and true from the checkpoint after call 2): the
outcome is the cancellation error, but the 2nd generator call does occur
(callsMade = 2), refuting the claim that no 2nd call to the external
generator occurs. -/
theorem cancellation_after_first_verification_counterexample :
    (exampleVerify exampleUnbalancedReport).overallStatus = OverallStatus.Failed ∧
    cancelAfterFirstVerification 1 = false ∧
    cancelAfterFirstVerification 2 = true ∧
    (runWithCorrection exampleVerify callsAlwaysUnbalanced cancelAfterFirstVerification).callsMade = 2 ∧
    (runWithCorrection exampleVerify callsAlwaysUnbalanced cancelAfterFirstVerification).outcome =
      RunOutcome.cancelled := by
  refine ⟨by with_unfolding_all rfl, rfl, rfl, by with_unfolding_all rfl, by with_unfolding_all rfl⟩

theorem cancellation_after_first_verification_aborts_after_second_call_witness :
    runWithCorrection exampleVerify callsAlwaysUnbalanced cancelAfterFirstVerification =
      { outcome := RunOutcome.cancelled, exposed := [1, 2], callsMade := 2 } :=
  cancellation_after_first_verification_aborts_after_second_call exampleVerify
    callsAlwaysUnbalanced cancelAfterFirstVerification exampleUnbalancedReport
    exampleUnbalancedReport rfl rfl (by with_unfolding_all rfl) rfl rfl

theorem correction_loop_exhausts_budget_after_five_calls_witness :
    (runWithCorrection exampleVerify callsAlwaysUnbalanced neverCancelled).callsMade = 5 ∧
    (runWithCorrection exampleVerify callsAlwaysUnbalanced neverCancelled).outcome =
      RunOutcome.budgetExceeded budgetMessage ∧
    budgetMessage = "Failed to correct the report after " ++ "5" ++
      " attempts. Please try again or use different source documents." :=
  correction_loop_exhausts_budget_after_five_calls exampleVerify callsAlwaysUnbalanced
    neverCancelled (fun _ => exampleUnbalancedReport) (fun _ => rfl) (fun _ _ _ => rfl)
    (fun _ _ _ => by with_unfolding_all rfl)

theorem correction_loop_stops_on_first_nonfailed_verification_witness :
    (runWithCorrection exampleVerify callsPassOnThird neverCancelled).callsMade = 3 ∧
    (runWithCorrection exampleVerify callsPassOnThird neverCancelled).outcome =
      RunOutcome.success (repPassOnThird 3) (exampleVerify (repPassOnThird 3)) :=
  correction_loop_stops_on_first_nonfailed_verification exampleVerify callsPassOnThird
    neverCancelled repPassOnThird 3 (fun _ => rfl) (by omega) (by omega) (fun j _ _ => rfl)
    (fun j hj1 hj2 => by interval_cases j <;> with_unfolding_all rfl)
    (by with_unfolding_all decide)

theorem generation_error_propagates_and_stops_run_witness :
    (runWithCorrection exampleVerify callsFailSecond neverCancelled).callsMade = 2 ∧
    (runWithCorrection exampleVerify callsFailSecond neverCancelled).outcome =
      RunOutcome.generationError geminiGenerateFailureMsg :=
  generation_error_propagates_and_stops_run exampleVerify callsFailSecond neverCancelled
    (fun _ => exampleUnbalancedReport) 2 geminiGenerateFailureMsg (fun _ => rfl) (by omega)
    (by omega) (fun j hj1 hj2 => by interval_cases j; rfl)
    (fun j hj1 hj2 => by interval_cases j; with_unfolding_all rfl) rfl

theorem deriveOverallStatus_failed_iff (cs : List VerificationCheck) :
    deriveOverallStatus cs = OverallStatus.Failed ↔ ∃ c ∈ cs, c.passed = false := by
  unfold deriveOverallStatus
  split_ifs with h1 h2 <;> simp_all [List.any_eq_true]

theorem deriveOverallStatus_warnings_iff (cs : List VerificationCheck) :
    deriveOverallStatus cs = OverallStatus.PassedWithWarnings ↔
      (∀ c ∈ cs, c.passed = true) ∧ ∃ c ∈ cs, c.notes.isSome := by
  unfold deriveOverallStatus
  split_ifs with h1 h2 <;> simp_all [List.any_eq_true]

theorem deriveOverallStatus_passed_iff (cs : List VerificationCheck) :
    deriveOverallStatus cs = OverallStatus.Passed ↔
      (∀ c ∈ cs, c.passed = true) ∧ ∀ c ∈ cs, c.notes = none := by
  unfold deriveOverallStatus
  split_ifs with h1 h2 <;> simp_all [List.any_eq_true, Option.isSome_iff_ne_none]

/-- C5: for every report and period, each identity check of the verification
engine passes exactly when the absolute discrepancy is at most the fixed
tolerance of 1 currency unit; at the boundary, a discrepancy of exactly the
tolerance passes and a discrepancy of tolerance + 0.01 fails (instantiated in
the witness for netProfit). -/
theorem identity_checks_pass_iff_within_tolerance (r : ReportData) (p : Period) :
    tolerance = 1 ∧
    (∀ a l e, r.balanceSheet.totalAssets = some a →
      r.balanceSheet.totalLiabilities = some l →
      r.balanceSheet.totalEquity = some e →
      ((balanceCheck r p).passed = true ↔ |a.amt p - (l.amt p + e.amt p)| ≤ tolerance)) ∧
    (∀ np, r.incomeStatement.netProfit = some np →
      ((incomeCheck r p).passed = true ↔
        |sumAmt p r.incomeStatement.revenue - sumAmt p r.incomeStatement.expenses - np.amt p| ≤
          tolerance)) ∧
    (∀ nc, r.cashFlowStatement.netChangeInCash = some nc →
      ((cashFlowCheck r p).passed = true ↔
        |sumAmt p r.cashFlowStatement.operatingActivities +
          sumAmt p r.cashFlowStatement.investingActivities +
          sumAmt p r.cashFlowStatement.financingActivities - nc.amt p| ≤ tolerance)) := by
  refine ⟨rfl, ?_, ?_, ?_⟩
  · intro a l e ha hl he
    simp [balanceCheck, ha, hl, he, ratAbs_eq_abs, sub_sub]
  · intro np hnp
    simp [incomeCheck, hnp, ratAbs_eq_abs]
  · intro nc hnc
    simp [cashFlowCheck, hnc, ratAbs_eq_abs]

theorem identity_checks_pass_iff_within_tolerance_witness :
    (incomeCheck exampleBoundaryReport Period.current).passed = true ∧
    (incomeCheck exampleOverBoundaryReport Period.current).passed = false := by
  constructor
  · exact ((identity_checks_pass_iff_within_tolerance exampleBoundaryReport Period.current).2.2.1
      { amount2025 := 99, amount2024 := 90 } rfl).mpr
      (by rw [← ratAbs_eq_abs]; with_unfolding_all decide)
  · have hiff := (identity_checks_pass_iff_within_tolerance exampleOverBoundaryReport
      Period.current).2.2.1 { amount2025 := 9899 / 100, amount2024 := 90 } rfl
    cases h : (incomeCheck exampleOverBoundaryReport Period.current).passed with
    | false => rfl
    | true => exact absurd (hiff.mp h) (by rw [← ratAbs_eq_abs]; with_unfolding_all decide)
/-- C6: the overall status of the certificate is derived in priority order (any
failed check gives Failed; otherwise any not-evaluated check gives
PassedWithWarnings; otherwise Passed), and a Balance Sheet check whose
required total is absent is recorded as not evaluated with passed = true,
discrepancy = 0 and an explanatory notes field — so with totalAssets missing
the overall status is Failed exactly when one of the other checks fails,
never because of the missing total itself. -/
theorem overall_status_priority_and_missing_total (now : String) (r : ReportData) :
    ((verifyReportData now r).overallStatus = OverallStatus.Failed ↔
      ∃ c ∈ (verifyReportData now r).checks, c.passed = false) ∧
    ((verifyReportData now r).overallStatus = OverallStatus.PassedWithWarnings ↔
      (∀ c ∈ (verifyReportData now r).checks, c.passed = true) ∧
      ∃ c ∈ (verifyReportData now r).checks, c.notes.isSome) ∧
    ((verifyReportData now r).overallStatus = OverallStatus.Passed ↔
      (∀ c ∈ (verifyReportData now r).checks, c.passed = true) ∧
      ∀ c ∈ (verifyReportData now r).checks, c.notes = none) ∧
    (r.balanceSheet.totalAssets = none →
      ∀ p, (balanceCheck r p).passed = true ∧ (balanceCheck r p).discrepancy = 0 ∧
        (balanceCheck r p).notes.isSome) ∧
    (r.balanceSheet.totalAssets = none →
      ((verifyReportData now r).overallStatus = OverallStatus.Failed ↔
        (incomeCheck r Period.current).passed = false ∨
        (incomeCheck r Period.prior).passed = false ∨
        (cashFlowCheck r Period.current).passed = false ∨
        (cashFlowCheck r Period.prior).passed = false)) := by
  have hbs : r.balanceSheet.totalAssets = none →
      ∀ p, (balanceCheck r p).passed = true ∧ (balanceCheck r p).discrepancy = 0 ∧
        (balanceCheck r p).notes.isSome := by
    intro hta p
    unfold balanceCheck
    rw [hta]
    exact ⟨rfl, rfl, rfl⟩
  refine ⟨deriveOverallStatus_failed_iff (reportChecks r),
    deriveOverallStatus_warnings_iff (reportChecks r),
    deriveOverallStatus_passed_iff (reportChecks r), hbs, ?_⟩
  intro hta
  rw [show (verifyReportData now r).overallStatus = deriveOverallStatus (reportChecks r) from rfl,
    deriveOverallStatus_failed_iff]
  constructor
  · rintro ⟨c, hc, hcp⟩
    simp only [reportChecks, List.mem_cons, List.mem_singleton, List.not_mem_nil] at hc
    rcases hc with rfl | rfl | rfl | rfl | rfl | rfl | h
    · exact absurd hcp (by simp [(hbs hta Period.current).1])
    · exact absurd hcp (by simp [(hbs hta Period.prior).1])
    · exact Or.inl hcp
    · exact Or.inr (Or.inl hcp)
    · exact Or.inr (Or.inr (Or.inl hcp))
    · exact Or.inr (Or.inr (Or.inr hcp))
    · exact absurd h (by simp)
  · intro h
    rcases h with h | h | h | h
    · exact ⟨incomeCheck r Period.current, by simp [reportChecks], h⟩
    · exact ⟨incomeCheck r Period.prior, by simp [reportChecks], h⟩
    · exact ⟨cashFlowCheck r Period.current, by simp [reportChecks], h⟩
    · exact ⟨cashFlowCheck r Period.prior, by simp [reportChecks], h⟩

theorem overall_status_priority_and_missing_total_witness :
    (balanceCheck exampleMissingTotalAssets Period.current).passed = true ∧
    (balanceCheck exampleMissingTotalAssets Period.current).discrepancy = 0 ∧
    (balanceCheck exampleMissingTotalAssets Period.current).notes.isSome ∧
    (verifyReportData "t" exampleMissingTotalAssets).overallStatus =
      OverallStatus.PassedWithWarnings :=
  have h := (overall_status_priority_and_missing_total "t" exampleMissingTotalAssets).2.2.2.1
    rfl Period.current
  ⟨h.1, h.2.1, h.2.2, by with_unfolding_all rfl⟩
/-- C7 counterexample: for the example report given in the spec (totalAssets.current
= 1000, totalLiabilities.current = 700, totalEquity.current = 250) the
correction value that the claim says the instruction step computes and emits
is the recomputed totalEquity 300; but the data actually interpolated into
the correction prompt is exactly the previous report plus the failed check
with discrepancy 50 — the value 300 appears in none of the serialized report
numbers and in none of the fields of the emitted failed check, so no
directive assigning the residual to an equity line is emitted. -/
theorem correction_instructions_no_plug_counterexample :
    specRecomputedTotalEquity exampleUnbalancedReport Period.current = 300 ∧
    correctionPromptData exampleUnbalancedReport (exampleVerify exampleUnbalancedReport) =
      (exampleUnbalancedReport, [exampleFailedBalanceCheck]) ∧
    exampleFailedBalanceCheck.discrepancy = 50 ∧
    exampleFailedBalanceCheck.calculation = renderQ 50 ∧
    exampleFailedBalanceCheck.reported = renderQ 50 ∧
    (300 : ℚ) ∉ reportNumbers exampleUnbalancedReport ∧
    exampleFailedBalanceCheck.discrepancy ≠ 300 := by
  refine ⟨by with_unfolding_all rfl, by with_unfolding_all rfl, rfl, rfl, rfl,
    by with_unfolding_all decide, by with_unfolding_all decide⟩

/-- C7 amended: for every failed check the correction instruction step
performs no arithmetic recomputation and emits no per-field directive: it
hands the external generator exactly the serialized previous report together
with the failed checks verbatim (each carrying the discrepancy computed by
verification), delegating the numeric repair to the model; in the example
of the spec the instructions carry the failed Balance Sheet check with
discrepancy 50 and nowhere carry the recomputed equity value 300. -/
theorem correction_instructions_serialize_failed_checks :
    (∀ (r : ReportData) (v : VerificationResult),
      correctionPromptData r v = (r, v.checks.filter (fun c => !c.passed))) ∧
    correctionPromptData exampleUnbalancedReport (exampleVerify exampleUnbalancedReport) =
      (exampleUnbalancedReport, [exampleFailedBalanceCheck]) ∧
    exampleFailedBalanceCheck.discrepancy = 50 ∧
    (300 : ℚ) ∉ reportNumbers exampleUnbalancedReport := by
  refine ⟨fun r v => rfl, by with_unfolding_all rfl, rfl, by with_unfolding_all decide⟩

/-- C8: the correction instruction construction is pure and deterministic —
for the same previous report and certificates whose failed-check lists agree
(in particular for the very same (certificate, report) pair, whatever the
timestamp or overall status of the certificate), the data interpolated into the
correction prompt is identical. -/
theorem correction_prompt_deterministic (r1 r2 : ReportData) (v1 v2 : VerificationResult)
    (hr : r1 = r2)
    (hv : v1.checks.filter (fun c => !c.passed) = v2.checks.filter (fun c => !c.passed)) :
    correctionPromptData r1 v1 = correctionPromptData r2 v2 := by
  simp [correctionPromptData, hr, hv]

theorem correction_prompt_deterministic_witness :
    correctionPromptData exampleUnbalancedReport
        (verifyReportData "2025-01-01T00:00:00Z" exampleUnbalancedReport) =
      correctionPromptData exampleUnbalancedReport
        (verifyReportData "2026-12-31T23:59:59Z" exampleUnbalancedReport) :=
  correction_prompt_deterministic exampleUnbalancedReport exampleUnbalancedReport
    (verifyReportData "2025-01-01T00:00:00Z" exampleUnbalancedReport)
    (verifyReportData "2026-12-31T23:59:59Z" exampleUnbalancedReport) rfl rfl

/-- C10: for the Gemini provider, with an empty configured apiKey and no
environment key, both the generate and the fix entry point return the
missing-API-key error without invoking the external model, and an
orchestrator run built over such a generator stops after its very first call
with that generation error, exposing only attempt 1 — the retry budget is
not consumed. -/
theorem missing_gemini_key_fails_before_model_call
    (config : ApiConfig) (envKey : Option String) (mc mcf : Except String ReportData)
    (vf : ReportData → VerificationResult) (flag : ℕ → Bool)
    (hkey : config.apiKey = "") (henv : envKey.getD "" = "") :
    generateFinancialReportGemini config envKey mc =
      (Except.error geminiMissingKeyMsgGenerate, false) ∧
    fixFinancialReportGemini config envKey mcf =
      (Except.error geminiMissingKeyMsgFix, false) ∧
    runWithCorrection vf (fun _ => (generateFinancialReportGemini config envKey mc).1) flag =
      { outcome := RunOutcome.generationError geminiMissingKeyMsgGenerate
        exposed := [1], callsMade := 1 } := by
  have hk : effectiveGeminiKey config.apiKey envKey = "" := by
    simp [effectiveGeminiKey, hkey, henv]
  have hg : generateFinancialReportGemini config envKey mc =
      (Except.error geminiMissingKeyMsgGenerate, false) := by
    simp [generateFinancialReportGemini, hk]
  refine ⟨hg, by simp [fixFinancialReportGemini, hk], ?_⟩
  exact runWithCorrection_error vf _ flag _ (by rw [hg])

theorem missing_gemini_key_fails_before_model_call_witness :
    generateFinancialReportGemini exampleGeminiConfigNoKey none
        (Except.ok exampleBalancedReport) =
      (Except.error geminiMissingKeyMsgGenerate, false) ∧
    fixFinancialReportGemini exampleGeminiConfigNoKey none
        (Except.ok exampleBalancedReport) =
      (Except.error geminiMissingKeyMsgFix, false) ∧
    runWithCorrection exampleVerify
      (fun _ => (generateFinancialReportGemini exampleGeminiConfigNoKey none
        (Except.ok exampleBalancedReport)).1) neverCancelled =
      { outcome := RunOutcome.generationError geminiMissingKeyMsgGenerate
        exposed := [1], callsMade := 1 } :=
  missing_gemini_key_fails_before_model_call exampleGeminiConfigNoKey none
    (Except.ok exampleBalancedReport) (Except.ok exampleBalancedReport)
    exampleVerify neverCancelled rfl rfl
end CCA
